import Mathlib

/-!
Verification of the Catfish API analysis backend (`apps/api/app/main.py`).

The Python source is shallowly embedded below.  Python `float` arithmetic is
modelled by exact rationals (`ℚ`); `int(x)` (truncation toward zero) is
`pyint`; Python dicts produced by the orchestrator are modelled as structures
whose optional keys are `Option` fields read back with the same defaults the
code passes to `dict.get`.
-/

namespace Catfish

/-- Python's `int(x)` on a numeric value: truncation toward zero. -/
def pyint (q : ℚ) : ℤ :=
  if 0 ≤ q then ⌊q⌋ else ⌈q⌉

/-- The score clamp used by the validators
(`max(0, min(100, int(s)))`, `main.py` lines 177-178, 668-669, 964-965). -/
def clamp_score (s : ℚ) : ℤ :=
  max 0 (min 100 (pyint s))

/-- The category normalization in `analyze_text` (`main.py` 172-174):
`if result["category"] not in ["safe","suspicious","scam_likely"]: result["category"] = "suspicious"`. -/
def text_normalize_category (c : String) : String :=
  if c ∉ ["safe", "suspicious", "scam_likely"] then "suspicious" else c

/-- The identical category normalization in `analyze_audio` (`main.py` 959-961). -/
def audio_normalize_category (c : String) : String :=
  if c ∉ ["safe", "suspicious", "scam_likely"] then "suspicious" else c

/-- `get_confidence_band` (`main.py` 385-396). -/
def get_confidence_band (score : ℤ) : String :=
  if score ≤ 20 then "likely_real"
  else if score ≤ 40 then "low_suspicion"
  else if score ≤ 60 then "uncertain"
  else if score ≤ 80 then "likely_ai"
  else "strong_ai_indicators"

/-- One forensic signal, as produced by the vision oracle
(see the `top_signals` items in `IMAGE_ANALYSIS_PROMPT`). -/
structure Signal where
  category : String
  signal : String
  description : String
  weight : ℚ
  severity : String
deriving DecidableEq, Repr

/-- The validated image analysis result dict, restricted to the fields the
calibration engine and the flag-addition step read or write. -/
structure ImageResult where
  ai_generated_score : ℤ
  top_signals : List Signal
  category_scores : List (String × ℤ)
  escalation_applied : Bool
  confidence_band : String
  signal_count : ℕ
  flags : List String
deriving DecidableEq, Repr

/-- Escalation rule 1 (`main.py` 418-423): if at least 3 categories carry a
sub-score ≥ 5, add 15 points capped at 100, flagging escalation when the
score actually rose. -/
def escalation_rule1 (categories_with_signals : ℕ) (p : ℤ × Bool) : ℤ × Bool :=
  if 3 ≤ categories_with_signals then
    let s := min 100 (p.1 + 15)
    (s, p.2 || decide (p.1 < s))
  else p

/-- Escalation rule 2 (`main.py` 425-430): with ≥ 2 high-severity signals the
score is floored at 70, flagging escalation when this raised it. -/
def escalation_rule2 (high_severity_count : ℕ) (p : ℤ × Bool) : ℤ × Bool :=
  if 2 ≤ high_severity_count then
    let s := max p.1 70
    (s, p.2 || decide (p.1 < s))
  else p

/-- Escalation rule 3 (`main.py` 432-437): a `structure` sub-score ≥ 20 floors
the score at 75, flagging escalation when this raised it. -/
def escalation_rule3 (structure_score : ℤ) (p : ℤ × Bool) : ℤ × Bool :=
  if 20 ≤ structure_score then
    let s := max p.1 75
    (s, p.2 || decide (p.1 < s))
  else p

/-- The three escalation rules applied in source order to the raw score,
starting from `escalation_applied = False` (`main.py` 416-437). -/
def escalation_pipeline (categories_with_signals high_severity_count : ℕ)
    (structure_score : ℤ) (score : ℤ) : ℤ × Bool :=
  escalation_rule3 structure_score
    (escalation_rule2 high_severity_count
      (escalation_rule1 categories_with_signals (score, false)))

/-- Number of high-severity signals (`main.py` 409). -/
def high_severity_count (r : ImageResult) : ℕ :=
  (r.top_signals.filter (fun s => s.severity == "high")).length

/-- Number of categories whose sub-score is at least 5 (`main.py` 413-414). -/
def categories_with_signals (r : ImageResult) : ℕ :=
  (r.category_scores.filter (fun p => 5 ≤ p.2)).length

/-- `category_scores.get("structure", 0)` (`main.py` 433). -/
def structure_score (r : ImageResult) : ℤ :=
  (r.category_scores.lookup "structure").getD 0

/-- `calibrate_ai_score` (`main.py` 399-445): Stage A of the calibration
engine, rewriting the score, escalation flag, confidence band and signal
count of a validated image result. -/
def calibrate_ai_score (r : ImageResult) : ImageResult :=
  let p := escalation_pipeline (categories_with_signals r) (high_severity_count r)
    (structure_score r) r.ai_generated_score
  let final := min 100 (max 0 p.1)
  { r with
    ai_generated_score := final
    escalation_applied := p.2 || r.escalation_applied
    confidence_band := get_confidence_band final
    signal_count := r.top_signals.length }

/-- The dict built by `call_aiornot_api` (`main.py` 537-582) and consumed by
`combine_ai_scores` and the flag-addition step; `Option` fields model keys
absent from the unavailable-branch dict. -/
structure AIOrNotOutcome where
  available : Bool
  verdict : Option String
  ai_confidence : Option ℚ
  generator : Option String
  deepfake_detected : Option Bool
  nsfw_detected : Option Bool
deriving DecidableEq, Repr

/-- `combine_ai_scores` (`main.py` 585-625): Stage B cross-oracle blending of
the Stage-A score with the classifier verdict, returning the combined score
and the boost flag. -/
def combine_ai_scores (gpt_score : ℤ) (o : AIOrNotOutcome) : ℤ × Bool :=
  if !o.available then (gpt_score, false)
  else
    let aiornot_confidence := o.ai_confidence.getD 0
    let aiornot_score := pyint (aiornot_confidence * 100)
    let aiornot_verdict := o.verdict.getD "human"
    if aiornot_verdict == "ai" && decide ((7 : ℚ)/10 ≤ aiornot_confidence) then
      let combined := pyint ((aiornot_score : ℚ) * (6/10) + (gpt_score : ℚ) * (4/10))
      let combined := max combined (pyint (aiornot_confidence * 80))
      (combined, decide (gpt_score < combined))
    else if aiornot_verdict == "human" && decide (aiornot_confidence ≤ (3 : ℚ)/10) then
      (pyint ((aiornot_score : ℚ) * (4/10) + (gpt_score : ℚ) * (6/10)), false)
    else
      let combined := pyint (((aiornot_score : ℚ) + (gpt_score : ℚ)) / 2)
      let combined := if 40 < |aiornot_score - gpt_score| then
        max aiornot_score gpt_score - 10 else combined
      (max 0 (min 100 combined), decide (gpt_score < combined))

/-- The detection-flag addition step of `analyze_image` (`main.py` 700-710):
append `"deepfake_detected"` / `"nsfw_content"` when the classifier reports
those detections as truthy. -/
def add_detection_flags (o : AIOrNotOutcome) (flags : List String) : List String :=
  let flags := if o.deepfake_detected.getD false then flags ++ ["deepfake_detected"] else flags
  if o.nsfw_detected.getD false then flags ++ ["nsfw_content"] else flags

/-- The tokens one application of the flag-addition step appends. -/
def detection_tokens (o : AIOrNotOutcome) : List String :=
  (if o.deepfake_detected.getD false then ["deepfake_detected"] else []) ++
    (if o.nsfw_detected.getD false then ["nsfw_content"] else [])

/-- Python `str.strip()`: drop leading and trailing whitespace.  Oracle reply
texts are modelled as `List Char`. -/
def pystrip (l : List Char) : List Char :=
  ((l.dropWhile Char.isWhitespace).reverse.dropWhile Char.isWhitespace).reverse

/-- Python `text.split("\n")`. -/
def splitNL : List Char → List (List Char)
  | [] => [[]]
  | c :: rest =>
    if c = '\n' then [] :: splitNL rest
    else
      match splitNL rest with
      | [] => [[c]]
      | h :: t => (c :: h) :: t

/-- Python `"\n".join(lines)`. -/
def joinNL (ls : List (List Char)) : List Char :=
  (ls.intersperse ['\n']).flatten

/-- The three-backtick fence delimiter. -/
def backticks : List Char := ['`', '`', '`']

/-- The markdown-fence stripping inside `parse_llm_response`
(`main.py` 102-111): strip outer whitespace; if the text starts with a fence,
drop the first line and, when the last line is a bare closing fence, drop it
too; rejoin with newlines. -/
def strip_markdown_fences (content : List Char) : List Char :=
  let text := pystrip content
  if text.take 3 = backticks then
    let lines := (splitNL text).drop 1
    let lines :=
      match lines.getLast? with
      | some last => if pystrip last = backticks then lines.dropLast else lines
      | none => lines
    joinNL lines
  else text

/-- `parse_llm_response` (`main.py` 100-112), parametrized by the JSON
decoder (`json.loads` is an external library call; `none` models a raised
`JSONDecodeError`). -/
def parse_llm_response {J : Type} (loads : List Char → Option J)
    (content : List Char) : Option J :=
  loads (strip_markdown_fences content)

/-- A fenced-code-block wrapper `"```json\n" + s + "\n```"` around a
serialized value. -/
def json_fence_wrap (s : List Char) : List Char :=
  backticks ++ ['j', 's', 'o', 'n'] ++ '\n' :: (s ++ '\n' :: backticks)

/-- A toy decoder used to instantiate `parse_llm_response` concretely: decodes
exactly the two-character text `42`. -/
def toy_loads (l : List Char) : Option ℕ :=
  if l = ['4', '2'] then some 42 else none

section PyIntLemmas

lemma pyint_of_nonneg {q : ℚ} (h : 0 ≤ q) : pyint q = ⌊q⌋ := by
  unfold pyint
  exact if_pos h

lemma pyint_nonneg {q : ℚ} (h : 0 ≤ q) : 0 ≤ pyint q := by
  rw [pyint_of_nonneg h]
  exact Int.floor_nonneg.mpr h

lemma pyint_le {q : ℚ} {n : ℤ} (h : q ≤ (n : ℚ)) : pyint q ≤ n := by
  unfold pyint
  split
  · calc ⌊q⌋ ≤ ⌊(n : ℚ)⌋ := Int.floor_mono h
      _ = n := Int.floor_intCast n
  · exact Int.ceil_le.mpr h

lemma le_pyint {q : ℚ} {n : ℤ} (h : (n : ℚ) ≤ q) : n ≤ pyint q := by
  unfold pyint
  split
  · exact Int.le_floor.mpr h
  · calc n = ⌈(n : ℚ)⌉ := (Int.ceil_intCast n).symm
      _ ≤ ⌈q⌉ := Int.ceil_mono h

end PyIntLemmas

section PipelineLemmas

/-- Through the escalation pipeline the score never decreases (for validated
scores ≤ 100) and never exceeds 100. -/
lemma escalation_pipeline_bounds (c h : ℕ) (st s : ℤ) (hs : s ≤ 100) :
    s ≤ (escalation_pipeline c h st s).1 ∧ (escalation_pipeline c h st s).1 ≤ 100 := by
  unfold escalation_pipeline escalation_rule1 escalation_rule2 escalation_rule3
  split_ifs <;> (try simp) <;> omega

/-- The pipeline's escalation flag is set exactly when the pipeline strictly
raised the score. -/
lemma escalation_pipeline_flag (c h : ℕ) (st s : ℤ) :
    ((escalation_pipeline c h st s).2 = true ↔ s < (escalation_pipeline c h st s).1) := by
  unfold escalation_pipeline escalation_rule1 escalation_rule2 escalation_rule3
  split_ifs <;> simp <;> omega

end PipelineLemmas

/-- C5: for every numeric value `s`, `clamp_score s = max 0 (min 100 (int s))`
lies in `[0, 100]`, is idempotent, maps values below 0 to 0 and values above
100 to 100, and on in-range values agrees with truncation toward zero (for
nonnegative arguments, `pyint` is the floor, bracketed by `s - 1 < pyint s ≤ s`). -/
theorem clamp_score_props (s : ℚ) :
    (0 ≤ clamp_score s ∧ clamp_score s ≤ 100) ∧
    clamp_score ((clamp_score s : ℤ) : ℚ) = clamp_score s ∧
    (s < 0 → clamp_score s = 0) ∧
    (100 < s → clamp_score s = 100) ∧
    (0 ≤ s → s ≤ 100 →
      clamp_score s = pyint s ∧ ((pyint s : ℚ) ≤ s ∧ s - 1 < (pyint s : ℚ))) := by
  refine ⟨⟨le_max_left _ _, ?_⟩, ?_, ?_, ?_, ?_⟩
  · unfold clamp_score
    omega
  · unfold clamp_score
    rw [pyint_of_nonneg (by positivity), Int.floor_intCast]
    omega
  · intro hneg
    unfold clamp_score pyint
    rw [if_neg (by linarith)]
    have : ⌈s⌉ ≤ 0 := Int.ceil_le.mpr (by exact_mod_cast hneg.le)
    omega
  · intro hbig
    unfold clamp_score
    have h0 : (0 : ℚ) ≤ s := by linarith
    rw [pyint_of_nonneg h0]
    have : (100 : ℤ) ≤ ⌊s⌋ := by
      rw [show (100 : ℤ) = ⌊(100 : ℚ)⌋ by norm_num]
      exact Int.floor_mono hbig.le
    omega
  · intro h0 h1
    have hfl : pyint s = ⌊s⌋ := pyint_of_nonneg h0
    refine ⟨?_, ?_, ?_⟩
    · unfold clamp_score
      rw [hfl]
      have hge : (0 : ℤ) ≤ ⌊s⌋ := Int.floor_nonneg.mpr h0
      have hle : ⌊s⌋ ≤ 100 := by
        rw [show (100 : ℤ) = ⌊(100 : ℚ)⌋ by norm_num]
        exact Int.floor_mono h1
      omega
    · rw [hfl]; exact Int.floor_le s
    · rw [hfl]; linarith [Int.sub_one_lt_floor s]

/-- Witness for `clamp_score_props` at concrete inputs (`mkRat (-5) 2 = -2.5`,
`mkRat 205 2 = 102.5`, `mkRat 15 2 = 7.5`). -/
theorem clamp_score_props_witness :
    clamp_score (mkRat (-5) 2) = 0 ∧ clamp_score (mkRat 205 2) = 100 ∧
      clamp_score (mkRat 15 2) = pyint (mkRat 15 2) :=
  ⟨(clamp_score_props (mkRat (-5) 2)).2.2.1 (by decide),
   (clamp_score_props (mkRat 205 2)).2.2.2.1 (by decide),
   ((clamp_score_props (mkRat 15 2)).2.2.2.2 (by decide) (by decide)).1⟩

/-- C6: category normalization, in both the text and the audio validators, is
the identity on `{safe, suspicious, scam_likely}` and sends every other string
to `"suspicious"`. -/
theorem normalize_category_total (c : String) :
    (c ∈ ["safe", "suspicious", "scam_likely"] →
      text_normalize_category c = c ∧ audio_normalize_category c = c) ∧
    (c ∉ ["safe", "suspicious", "scam_likely"] →
      text_normalize_category c = "suspicious" ∧ audio_normalize_category c = "suspicious") := by
  unfold text_normalize_category audio_normalize_category
  constructor
  · intro hmem
    rw [if_neg (not_not_intro hmem)]
    exact ⟨rfl, rfl⟩
  · intro hmem
    rw [if_pos hmem]
    exact ⟨rfl, rfl⟩

/-- Witness for `normalize_category_total`: a valid member is kept, an
invalid string is replaced. -/
theorem normalize_category_total_witness :
    text_normalize_category "safe" = "safe" ∧ audio_normalize_category "banana" = "suspicious" :=
  ⟨((normalize_category_total "safe").1 (by decide)).1,
   ((normalize_category_total "banana").2 (by decide)).2⟩

/-- C4: Stage A calibration is monotonically non-decreasing: for every
validated image result with input score in `[0, 100]`, the score written back
by `calibrate_ai_score` is at least the input score. -/
theorem calibrate_ai_score_monotone (r : ImageResult)
    (h0 : 0 ≤ r.ai_generated_score) (h1 : r.ai_generated_score ≤ 100) :
    r.ai_generated_score ≤ (calibrate_ai_score r).ai_generated_score := by
  unfold calibrate_ai_score
  have hb := escalation_pipeline_bounds (categories_with_signals r) (high_severity_count r)
    (structure_score r) r.ai_generated_score h1
  simp only
  omega

/-- Witness for `calibrate_ai_score_monotone` at a concrete validated result. -/
theorem calibrate_ai_score_monotone_witness :
    (⟨40, [], [("texture", 8), ("structure", 6), ("lighting", 6)], false, "uncertain", 0, []⟩ :
      ImageResult).ai_generated_score ≤
      (calibrate_ai_score
        ⟨40, [], [("texture", 8), ("structure", 6), ("lighting", 6)], false, "uncertain", 0, []⟩).ai_generated_score :=
  calibrate_ai_score_monotone _ (by decide) (by decide)

/-- C9: the escalation flag written back by the calibration engine is the OR
of "some escalation rule strictly raised the score" with the flag supplied in
the input result; an oracle-claimed escalation is preserved even when no rule
fires. -/
theorem calibrate_ai_score_escalation_flag (r : ImageResult) :
    ((calibrate_ai_score r).escalation_applied = true ↔
      (r.ai_generated_score <
        (escalation_pipeline (categories_with_signals r) (high_severity_count r)
          (structure_score r) r.ai_generated_score).1 ∨
        r.escalation_applied = true)) := by
  unfold calibrate_ai_score
  simp only [Bool.or_eq_true]
  rw [escalation_pipeline_flag]

/-- C7: when the classifier result is unavailable, Stage B blending is the
identity on the Stage-A score and records no boost. -/
theorem combine_ai_scores_unavailable (g : ℤ) (o : AIOrNotOutcome)
    (h0 : 0 ≤ g) (h1 : g ≤ 100) (ho : o.available = false) :
    combine_ai_scores g o = (g, false) := by
  unfold combine_ai_scores
  rw [ho]
  simp

/-- Witness for `combine_ai_scores_unavailable` at a concrete score and the
unavailable-branch dict. -/
theorem combine_ai_scores_unavailable_witness :
    combine_ai_scores 42 ⟨false, none, none, none, none, none⟩ = (42, false) :=
  combine_ai_scores_unavailable 42 ⟨false, none, none, none, none, none⟩
    (by decide) (by decide) rfl

/-- One application of the flag-addition step appends exactly the detection
tokens of the classifier outcome. -/
lemma add_detection_flags_eq (o : AIOrNotOutcome) (flags : List String) :
    add_detection_flags o flags = flags ++ detection_tokens o := by
  unfold add_detection_flags detection_tokens
  cases o.deepfake_detected.getD false <;> cases o.nsfw_detected.getD false <;> simp

/-- C2 counterexample: with the classifier flagging a deepfake, applying the
flag-addition step twice to the empty flag list duplicates the token, so the
step is not idempotent. -/
theorem add_detection_flags_not_idempotent :
    add_detection_flags ⟨true, some "ai", some 1, none, some true, some false⟩
        (add_detection_flags ⟨true, some "ai", some 1, none, some true, some false⟩ []) ≠
      add_detection_flags ⟨true, some "ai", some 1, none, some true, some false⟩ [] := by
  decide

/-- C2 amended: the flag tokens are appended unconditionally (no presence
check), so each repeated application with the same classifier output appends
the same tokens again. -/
theorem add_detection_flags_appends (o : AIOrNotOutcome) (flags : List String) :
    add_detection_flags o flags = flags ++ detection_tokens o ∧
      add_detection_flags o (add_detection_flags o flags) =
        (flags ++ detection_tokens o) ++ detection_tokens o := by
  refine ⟨add_detection_flags_eq o flags, ?_⟩
  rw [add_detection_flags_eq, add_detection_flags_eq]

/-- C3 counterexample: a validated result with three affected categories but
raw score already 100 leaves the score at 100 and `escalation_applied`
`false`, although the claim says escalation is marked triggered. -/
theorem rule1_escalation_counterexample :
    3 ≤ categories_with_signals
        ⟨100, [], [("texture", 8), ("structure", 6), ("lighting", 6)], false, "uncertain", 0, []⟩ ∧
      (calibrate_ai_score
        ⟨100, [], [("texture", 8), ("structure", 6), ("lighting", 6)], false, "uncertain", 0, []⟩).ai_generated_score = 100 ∧
      (calibrate_ai_score
        ⟨100, [], [("texture", 8), ("structure", 6), ("lighting", 6)], false, "uncertain", 0, []⟩).escalation_applied = false := by
  decide

/-- C3 amended: with at least 3 affected categories, escalation rule 1 adds
15 points capped at 100 and marks escalation exactly when this raised the
score (i.e. when the score was below 100); in particular the spec's scenario
(texture=8, structure=6, lighting=6, raw 40) yields 55 with escalation
applied. -/
theorem rule1_escalation_amended (s : ℤ) (b : Bool) (c : ℕ)
    (h0 : 0 ≤ s) (h1 : s ≤ 100) (hc : 3 ≤ c) :
    (escalation_rule1 c (s, b)).1 = min 100 (s + 15) ∧
      ((escalation_rule1 c (s, b)).2 = (b || decide (s < 100))) ∧
      (calibrate_ai_score
        ⟨40, [], [("texture", 8), ("structure", 6), ("lighting", 6)], false, "uncertain", 0, []⟩).ai_generated_score = 55 ∧
      (calibrate_ai_score
        ⟨40, [], [("texture", 8), ("structure", 6), ("lighting", 6)], false, "uncertain", 0, []⟩).escalation_applied = true := by
  refine ⟨?_, ?_, by decide, by decide⟩
  · unfold escalation_rule1
    rw [if_pos hc]
  · unfold escalation_rule1
    rw [if_pos hc]
    simp only
    congr 1
    rw [decide_eq_decide]
    omega

/-- Witness for `rule1_escalation_amended` at the spec's own scenario. -/
theorem rule1_escalation_amended_witness :
    (escalation_rule1 3 ((40 : ℤ), false)).1 = min 100 (40 + 15) ∧
      ((escalation_rule1 3 ((40 : ℤ), false)).2 = (false || decide ((40 : ℤ) < 100))) ∧
      (calibrate_ai_score
        ⟨40, [], [("texture", 8), ("structure", 6), ("lighting", 6)], false, "uncertain", 0, []⟩).ai_generated_score = 55 ∧
      (calibrate_ai_score
        ⟨40, [], [("texture", 8), ("structure", 6), ("lighting", 6)], false, "uncertain", 0, []⟩).escalation_applied = true :=
  rule1_escalation_amended 40 false 3 (by decide) (by decide) (by decide)

/-- C10: under the preconditions `gptScore ∈ [0,100]` and classifier
confidence in `[0,1]`, the blended score lies in `[0,100]` in every branch of
`combine_ai_scores`, including the two high-confidence branches that return
unclamped arithmetic. -/
theorem combine_ai_scores_bounded (g : ℤ) (o : AIOrNotOutcome)
    (hg0 : 0 ≤ g) (hg1 : g ≤ 100)
    (hc0 : 0 ≤ o.ai_confidence.getD 0) (hc1 : o.ai_confidence.getD 0 ≤ 1) :
    0 ≤ (combine_ai_scores g o).1 ∧ (combine_ai_scores g o).1 ≤ 100 := by
  unfold combine_ai_scores
  cases hav : o.available with
  | false => simpa [hav] using ⟨hg0, hg1⟩
  | true =>
    set conf := o.ai_confidence.getD 0 with hconf
    have hg0q : (0 : ℚ) ≤ (g : ℚ) := by exact_mod_cast hg0
    have hg1q : (g : ℚ) ≤ 100 := by exact_mod_cast hg1
    have has0 : 0 ≤ pyint (conf * 100) := pyint_nonneg (by nlinarith)
    have has1 : pyint (conf * 100) ≤ 100 := pyint_le (by push_cast; nlinarith)
    have has0q : (0 : ℚ) ≤ (pyint (conf * 100) : ℚ) := by exact_mod_cast has0
    have has1q : ((pyint (conf * 100) : ℤ) : ℚ) ≤ 100 := by exact_mod_cast has1
    simp only [hav, Bool.not_true, Bool.false_eq_true, if_false]
    split_ifs with h1 h2
    · have hb0 : 0 ≤ pyint ((pyint (conf * 100) : ℚ) * (6/10) + (g : ℚ) * (4/10)) :=
        pyint_nonneg (by nlinarith)
      have hb1 : pyint ((pyint (conf * 100) : ℚ) * (6/10) + (g : ℚ) * (4/10)) ≤ 100 :=
        pyint_le (by push_cast; nlinarith)
      have hf0 : 0 ≤ pyint (conf * 80) := pyint_nonneg (by nlinarith)
      have hf1 : pyint (conf * 80) ≤ 80 := pyint_le (by push_cast; nlinarith)
      simp only
      omega
    · have hb0 : 0 ≤ pyint ((pyint (conf * 100) : ℚ) * (4/10) + (g : ℚ) * (6/10)) :=
        pyint_nonneg (by nlinarith)
      have hb1 : pyint ((pyint (conf * 100) : ℚ) * (4/10) + (g : ℚ) * (6/10)) ≤ 100 :=
        pyint_le (by push_cast; nlinarith)
      simp only
      omega
    all_goals
      simp only
      constructor
      · exact le_max_left _ _
      · exact max_le (by norm_num) (min_le_left _ _)

/-- Witness for `combine_ai_scores_bounded` at the spec's scenario (verdict
`"ai"`, confidence 0.9 as `mkRat 9 10`, Stage-A score 50). -/
theorem combine_ai_scores_bounded_witness :
    0 ≤ (combine_ai_scores 50 ⟨true, some "ai", some (mkRat 9 10), none, none, none⟩).1 ∧
      (combine_ai_scores 50 ⟨true, some "ai", some (mkRat 9 10), none, none, none⟩).1 ≤ 100 :=
  combine_ai_scores_bounded 50 ⟨true, some "ai", some (mkRat 9 10), none, none, none⟩
    (by decide) (by decide) (by decide) (by decide)

lemma mkRat_seven_tenths : (mkRat 7 10 : ℚ) = 7/10 := by
  rw [Rat.mkRat_eq_div]
  norm_num

/-- C1 counterexample: at confidence 0.7 (`mkRat 7 10`) and `gptScore = 94`,
the code returns `int(70·0.6 + 94·0.4) = 79`, while the claimed rounding
formula `max(round(round(0.7·100)·0.6 + 94·0.4), round(0.7·80))` gives 80. -/
theorem combine_rounding_counterexample :
    (combine_ai_scores 94 ⟨true, some "ai", some (mkRat 7 10), none, none, none⟩).1 = 79 ∧
      max (round (((round ((mkRat 7 10 : ℚ) * 100) : ℤ) : ℚ) * (6/10) + (94 : ℚ) * (4/10)))
        (round ((mkRat 7 10 : ℚ) * 80)) = 80 := by
  constructor
  · unfold combine_ai_scores
    simp only [Option.getD_some, mkRat_seven_tenths]
    rw [if_neg (by simp)]
    rw [if_pos (by simp)]
    have h1 : pyint ((7:ℚ)/10 * 100) = 70 := by
      rw [pyint_of_nonneg (by norm_num), show ((7:ℚ)/10 * 100) = ((70:ℤ):ℚ) by norm_num,
        Int.floor_intCast]
    rw [h1]
    have h2 : pyint (((70:ℤ):ℚ) * (6/10) + ((94:ℤ):ℚ) * (4/10)) = 79 := by
      rw [pyint_of_nonneg (by norm_num),
        show (((70:ℤ):ℚ) * (6/10) + ((94:ℤ):ℚ) * (4/10)) = (((398:ℤ):ℚ)/((5:ℕ):ℚ)) by push_cast; norm_num,
        Rat.floor_intCast_div_natCast]
      decide
    have h3 : pyint ((7:ℚ)/10 * 80) = 56 := by
      rw [pyint_of_nonneg (by norm_num), show ((7:ℚ)/10 * 80) = ((56:ℤ):ℚ) by norm_num,
        Int.floor_intCast]
    rw [h2, h3]
    decide
  · have hr1 : round ((mkRat 7 10 : ℚ) * 100) = 70 := by
      rw [mkRat_seven_tenths, show ((7:ℚ)/10 * 100) = ((70:ℤ):ℚ) by norm_num, round_intCast]
    rw [hr1]
    have hr2 : round (((70:ℤ):ℚ) * (6/10) + (94 : ℚ) * (4/10)) = 80 := by
      rw [round_eq,
        show (((70:ℤ):ℚ) * (6/10) + (94 : ℚ) * (4/10) + 1/2) = (((801:ℤ):ℚ)/((10:ℕ):ℚ)) by push_cast; norm_num,
        Rat.floor_intCast_div_natCast]
      decide
    have hr3 : round ((mkRat 7 10 : ℚ) * 80) = 56 := by
      rw [mkRat_seven_tenths, show ((7:ℚ)/10 * 80) = ((56:ℤ):ℚ) by norm_num, round_intCast]
    rw [hr2, hr3]
    decide

/-- C1 amended: in the high-confidence "ai" branch (verdict `"ai"`,
confidence ≥ 0.7), the classifier score is the truncation `⌊conf·100⌋` and
the blended score is the truncation `⌊classifierScore·0.6 + gptScore·0.4⌋`
raised to at least the truncation `⌊conf·80⌋` (truncation = floor on these
nonnegative values), for every `gptScore ∈ [0,100]` and confidence in
`[0.7, 1]`. -/
theorem combine_high_conf_ai_amended (g : ℤ) (conf : ℚ)
    (hg0 : 0 ≤ g) (hg1 : g ≤ 100) (hc0 : mkRat 7 10 ≤ conf) (hc1 : conf ≤ 1) :
    (combine_ai_scores g ⟨true, some "ai", some conf, none, none, none⟩).1 =
      max ⌊(⌊conf * 100⌋ : ℚ) * (6/10) + (g : ℚ) * (4/10)⌋ ⌊conf * 80⌋ ∧
      ⌊conf * 80⌋ ≤ (combine_ai_scores g ⟨true, some "ai", some conf, none, none, none⟩).1 := by
  rw [mkRat_seven_tenths] at hc0
  have hconf0 : (0:ℚ) ≤ conf := by linarith
  have hg0q : (0:ℚ) ≤ (g:ℚ) := by exact_mod_cast hg0
  have hmain : (combine_ai_scores g ⟨true, some "ai", some conf, none, none, none⟩).1 =
      max ⌊(⌊conf * 100⌋ : ℚ) * (6/10) + (g : ℚ) * (4/10)⌋ ⌊conf * 80⌋ := by
    unfold combine_ai_scores
    simp only [Option.getD_some]
    rw [if_neg (by simp)]
    rw [if_pos (by simp [hc0])]
    have h1 : pyint (conf * 100) = ⌊conf * 100⌋ := pyint_of_nonneg (by positivity)
    have h2 : (0:ℚ) ≤ (⌊conf * 100⌋ : ℚ) * (6/10) + (g : ℚ) * (4/10) := by
      have : (0:ℤ) ≤ ⌊conf * 100⌋ := Int.floor_nonneg.mpr (by positivity)
      have : (0:ℚ) ≤ (⌊conf * 100⌋ : ℚ) := by exact_mod_cast this
      nlinarith
    have h3 : pyint ((⌊conf * 100⌋ : ℚ) * (6/10) + (g : ℚ) * (4/10)) =
        ⌊(⌊conf * 100⌋ : ℚ) * (6/10) + (g : ℚ) * (4/10)⌋ := pyint_of_nonneg h2
    have h4 : pyint (conf * 80) = ⌊conf * 80⌋ := pyint_of_nonneg (by positivity)
    simp only [h1, h3, h4]
  exact ⟨hmain, hmain ▸ le_max_right _ _⟩

/-- Witness for `combine_high_conf_ai_amended` at `gptScore = 94`,
confidence `mkRat 7 10` (= 0.7). -/
theorem combine_high_conf_ai_amended_witness :
    (combine_ai_scores 94 ⟨true, some "ai", some (mkRat 7 10), none, none, none⟩).1 =
      max ⌊(⌊(mkRat 7 10 : ℚ) * 100⌋ : ℚ) * (6/10) + ((94:ℤ) : ℚ) * (4/10)⌋ ⌊(mkRat 7 10 : ℚ) * 80⌋ ∧
      ⌊(mkRat 7 10 : ℚ) * 80⌋ ≤
        (combine_ai_scores 94 ⟨true, some "ai", some (mkRat 7 10), none, none, none⟩).1 :=
  combine_high_conf_ai_amended 94 (mkRat 7 10) (by decide) (by decide) (by decide) (by decide)

section StringLemmas

lemma dropWhile_ws_eq_self (l : List Char) (h : ∀ c, l.head? = some c → ¬c.isWhitespace) :
    l.dropWhile Char.isWhitespace = l := by
  cases l with
  | nil => rfl
  | cons a t =>
    rw [List.dropWhile_cons, if_neg (by simpa using h a rfl)]

/-- `pystrip` is the identity on texts with no surrounding whitespace. -/
lemma pystrip_eq_self (l : List Char) (hh : ∀ c, l.head? = some c → ¬c.isWhitespace)
    (hl : ∀ c, l.getLast? = some c → ¬c.isWhitespace) : pystrip l = l := by
  unfold pystrip
  rw [dropWhile_ws_eq_self l hh,
    dropWhile_ws_eq_self l.reverse (fun c hc => hl c (by rwa [List.head?_reverse] at hc)),
    List.reverse_reverse]

lemma splitNL_of_not_mem {s : List Char} (h : '\n' ∉ s) : splitNL s = [s] := by
  induction s with
  | nil => rfl
  | cons c t ih =>
    have hc : c ≠ '\n' := fun hc => h (hc ▸ List.mem_cons_self c t)
    have ht : '\n' ∉ t := fun hm => h (List.mem_cons_of_mem c hm)
    unfold splitNL
    rw [if_neg hc, ih ht]

lemma splitNL_append (a rest : List Char) (h : '\n' ∉ a) :
    splitNL (a ++ '\n' :: rest) = a :: splitNL rest := by
  induction a with
  | nil =>
    show splitNL ('\n' :: rest) = [] :: splitNL rest
    conv_lhs => unfold splitNL
    rw [if_pos rfl]
  | cons c t ih =>
    have hc : c ≠ '\n' := fun hc2 => h (hc2 ▸ List.mem_cons_self c t)
    have ht : '\n' ∉ t := fun hm => h (List.mem_cons_of_mem c hm)
    show splitNL (c :: (t ++ '\n' :: rest)) = (c :: t) :: splitNL rest
    conv_lhs => unfold splitNL
    rw [if_neg hc, ih ht]

lemma joinNL_single (s : List Char) : joinNL [s] = s := by
  simp [joinNL]

end StringLemmas

/-- C8: the response normalizer strips at most one leading fence line and one
trailing fence line and performs no other repair — for every raw text `t`,
its result is exactly the decoder applied to the fence-stripped text (so it
fails iff that text does not decode); and for every decoded value `v` with
serialization `s` (a single line with no surrounding whitespace that does not
itself start with a fence, on which the decoder round-trips), normalizing
both the fence-wrapped serialization and the bare serialization yields `v`. -/
theorem parse_llm_response_spec {J : Type} (loads : List Char → Option J) (v : J)
    (s t : List Char)
    (hload : loads s = some v)
    (hnl : '\n' ∉ s)
    (hstrip : pystrip s = s)
    (hticks : s.take 3 ≠ backticks) :
    parse_llm_response loads (json_fence_wrap s) = some v ∧
      parse_llm_response loads s = some v ∧
      parse_llm_response loads t = loads (strip_markdown_fences t) := by
  refine ⟨?_, ?_, rfl⟩
  · have hps : pystrip (json_fence_wrap s) = json_fence_wrap s := by
      apply pystrip_eq_self
      · intro c hc
        have : (json_fence_wrap s).head? = some '`' := rfl
        rw [this] at hc
        cases hc
        decide
      · intro c hc
        have hw : json_fence_wrap s =
            (backticks ++ ['j', 's', 'o', 'n'] ++ '\n' :: (s ++ ['\n', '`', '`'])) ++ ['`'] := by
          unfold json_fence_wrap backticks
          simp
        rw [hw, List.getLast?_concat] at hc
        cases hc
        decide
    unfold parse_llm_response strip_markdown_fences
    rw [hps]
    rw [if_pos (by rfl)]
    have hsplit : splitNL (json_fence_wrap s) =
        (backticks ++ ['j', 's', 'o', 'n']) :: s :: [backticks] := by
      have hw : json_fence_wrap s =
          (backticks ++ ['j', 's', 'o', 'n']) ++ '\n' :: (s ++ '\n' :: backticks) := by
        unfold json_fence_wrap
        simp
      rw [hw, splitNL_append _ _ (by decide), splitNL_append _ _ hnl,
        splitNL_of_not_mem (by decide)]
    rw [hsplit]
    simp only [List.drop_succ_cons, List.drop_zero]
    simp only [List.getLast?_cons_cons, List.getLast?_singleton]
    rw [if_pos (by decide)]
    rw [show (s :: [backticks]).dropLast = [s] by simp]
    rw [joinNL_single]
    exact hload
  · unfold parse_llm_response strip_markdown_fences
    rw [hstrip, if_neg hticks]
    exact hload

/-- Witness for `parse_llm_response_spec`: the toy decoder applied to the
serialized text `42`, both fence-wrapped and bare, and an arbitrary raw
text. -/
theorem parse_llm_response_spec_witness :
    parse_llm_response toy_loads (json_fence_wrap ['4', '2']) = some 42 ∧
      parse_llm_response toy_loads ['4', '2'] = some 42 ∧
      parse_llm_response toy_loads ['`', 'x'] = toy_loads (strip_markdown_fences ['`', 'x']) :=
  parse_llm_response_spec toy_loads 42 ['4', '2'] ['`', 'x']
    (by decide) (by decide) (by decide) (by decide)

end Catfish
